import Mathlib

/-!
Verification of the AgentField node-side SDK core against its specification.

The data model and operations below are a shallow embedding of the Python SDK:
the exception hierarchy is translated from
`src/sdk/python/agentfield/exceptions.py`; the connectivity, heartbeat,
async-tracker and remote-store operations are modelled from the specification
(the corresponding implementation modules are not part of the source tree,
only their tests are). Machine-level effects (network calls, raised
exceptions, wall-clock sleeps) are made explicit: each operation takes the
outcome of its underlying transport call as a parameter and returns its
result together with the number of network calls it performed.
-/

namespace AgentField

/-! ## Exception hierarchy (from `src/sdk/python/agentfield/exceptions.py`) -/

/-- The exception classes of the SDK taxonomy, plus the Python builtin root
`Exception`. -/
inductive ExcKind
  | Exception
  | AgentFieldError
  | AgentFieldClientError
  | ExecutionTimeoutError
  | MemoryAccessError
  | RegistrationError
  | ValidationError
  deriving DecidableEq, Repr

/-- Direct base class of each exception class, exactly as declared in
`exceptions.py` (every SDK error derives from `AgentFieldError`, which
derives from the builtin `Exception`). -/
def pyBase : ExcKind → Option ExcKind
  | .Exception => none
  | .AgentFieldError => some .Exception
  | .AgentFieldClientError => some .AgentFieldError
  | .ExecutionTimeoutError => some .AgentFieldError
  | .MemoryAccessError => some .AgentFieldError
  | .RegistrationError => some .AgentFieldError
  | .ValidationError => some .AgentFieldError

/-- Fuel-bounded walk up the base-class chain; the hierarchy has depth at
most 3, so any fuel of at least 3 computes the full reflexive-transitive
closure. -/
def subclassOfFuel : Nat → ExcKind → ExcKind → Bool
  | 0, _, _ => false
  | n + 1, c, d =>
    c = d ||
      match pyBase c with
      | some p => subclassOfFuel n p d
      | none => false

/-- Python `issubclass` on the SDK exception classes: reflexive-transitive
closure of the declared base-class relation. -/
def subclassOf (c d : ExcKind) : Bool :=
  subclassOfFuel 8 c d

/-- Python `except` semantics: an exception instance of class `c` is caught
by a handler for class `d` iff `c` is a subclass of `d`. -/
def catchableAs (c d : ExcKind) : Bool :=
  subclassOf c d

/-- The five concrete SDK error classes exported by `exceptions.py`. -/
def sdkErrorKinds : List ExcKind :=
  [.AgentFieldClientError, .ExecutionTimeoutError, .MemoryAccessError,
   .RegistrationError, .ValidationError]

/-! ## Error values shared by the modelled client operations -/

/-- Typed error values raised by the control-plane client operations. -/
inductive SdkError
  | clientError (msg : String)
  | executionTimeout (msg : String)
  | validation (msg : String)
  deriving DecidableEq, Repr

/-- The exception class an `SdkError` value is raised as. -/
def SdkError.kind : SdkError → ExcKind
  | .clientError _ => .AgentFieldClientError
  | .executionTimeout _ => .ExecutionTimeoutError
  | .validation _ => .ValidationError

/-- The human-readable message carried by an `SdkError` value. -/
def SdkError.message : SdkError → String
  | .clientError m => m
  | .executionTimeout m => m
  | .validation m => m

end AgentField

namespace AgentField

/-! ## Remote Store Client (spec section 4.5)

Modelled from the spec: the `MemoryClient` implementation module is not in
the source tree (only its tests are). Each operation takes the outcome of
its single underlying `_async_request` call as a parameter. -/

/-- A raised `MemoryAccessError` value: its message and, when it was
produced by wrapping a transport failure, the message of that underlying
cause (`none` when the error was raised directly, i.e. no secondary
cause). -/
structure MemoryAccessErrorVal where
  msg : String
  causeMsg : Option String
  deriving DecidableEq, Repr

/-- Outcome of the underlying request of one store operation: a response
with an HTTP status and a body, a raised raw transport error, or a raised
error that is already of the domain-specific memory-access kind. -/
inductive MemReqOutcome (α : Type)
  | ok (status : Nat) (value : α)
  | raisedTransport (msg : String)
  | raisedMemoryAccess (e : MemoryAccessErrorVal)
  deriving DecidableEq, Repr

/-- Modelled from the spec: the uniform error-classification wrapper of the
Remote Store Client. A transport-layer failure is wrapped into a
memory-access error carrying the operation-specific message `opMsg` (the
transport error kept as the cause); an error already of the
memory-access kind is re-raised unchanged, never re-wrapped. -/
def wrapMemoryAccess (opMsg : String) (r : MemReqOutcome α) :
    Except MemoryAccessErrorVal (Nat × α) :=
  match r with
  | .ok status v => .ok (status, v)
  | .raisedTransport t => .error ⟨opMsg, some t⟩
  | .raisedMemoryAccess e => .error e

namespace MemoryClient

/-- Modelled from the spec: `set(key, value)`. -/
def set (key value : String) (r : MemReqOutcome Unit) :
    Except MemoryAccessErrorVal Unit :=
  match key, value, wrapMemoryAccess "Failed to set memory key" r with
  | _, _, .ok _ => .ok ()
  | _, _, .error e => .error e

/-- Modelled from the spec: `get(key, default)`; a not-found (404) response
returns the caller-supplied default instead of raising. -/
def get (key default : String) (r : MemReqOutcome String) :
    Except MemoryAccessErrorVal String :=
  match key, wrapMemoryAccess "Failed to get memory key" r with
  | _, .ok (status, v) => if status = 404 then .ok default else .ok v
  | _, .error e => .error e

/-- Modelled from the spec: `delete(key)`. -/
def delete (key : String) (r : MemReqOutcome Unit) :
    Except MemoryAccessErrorVal Unit :=
  match key, wrapMemoryAccess "Failed to delete memory key" r with
  | _, .ok _ => .ok ()
  | _, .error e => .error e

/-- Modelled from the spec: `list_keys(scope)`. -/
def list_keys (scope : String) (r : MemReqOutcome (List String)) :
    Except MemoryAccessErrorVal (List String) :=
  match scope, wrapMemoryAccess "Failed to list keys" r with
  | _, .ok (_, ks) => .ok ks
  | _, .error e => .error e

/-- Modelled from the spec: `set_vector(key, vector)`. -/
def set_vector (key : String) (vector : List Int) (r : MemReqOutcome Unit) :
    Except MemoryAccessErrorVal Unit :=
  match key, vector, wrapMemoryAccess "Failed to set vector key" r with
  | _, _, .ok _ => .ok ()
  | _, _, .error e => .error e

/-- Modelled from the spec: `delete_vector(key)`. -/
def delete_vector (key : String) (r : MemReqOutcome Unit) :
    Except MemoryAccessErrorVal Unit :=
  match key, wrapMemoryAccess "Failed to delete vector key" r with
  | _, .ok _ => .ok ()
  | _, .error e => .error e

/-- Modelled from the spec: `similarity_search(vector)`. -/
def similarity_search (vector : List Int) (r : MemReqOutcome (List String)) :
    Except MemoryAccessErrorVal (List String) :=
  match vector, wrapMemoryAccess "Failed to perform similarity search" r with
  | _, .ok (_, hits) => .ok hits
  | _, .error e => .error e

/-- Modelled from the spec: `exists(key)` suppresses every error
unconditionally (including the domain-specific kind) and returns `false`;
on a response it reports whether the key was found. -/
def existsKey (key : String) (r : MemReqOutcome Unit) : Bool :=
  match key, r with
  | _, .ok status _ => status == 200
  | _, .raisedTransport _ => false
  | _, .raisedMemoryAccess _ => false

end MemoryClient

/-! ## Connection State Machine and Callback Negotiator (spec sections 4.1, 4.2)

Modelled from the spec: the `register_with_haxen_server` implementation
module is not in the source tree (only its tests are). The environment of
one registration attempt — the container probe, the candidate builder, the
fallback resolver and the outcome of the lower-level register transport
call — is passed in explicitly. -/

/-- The connection record owned by the node (spec section 3). -/
structure AgentState where
  haxen_connected : Bool
  base_url : Option String
  callback_candidates : List String
  deriving DecidableEq, Repr

/-- The two error classifications of spec section 4.2: a transport/network
class error (the distinguished request-exception kind) versus any other
error kind. -/
inductive ErrKind
  | requestException
  | otherError
  deriving DecidableEq, Repr

/-- Outcome of the lower-level register transport call: a truthy success
(optionally carrying discovery feedback), an explicit unsuccessful result,
or a raised error of one of the two classifications. -/
inductive RegisterOutcome
  | success (resolved_base_url : Option String)
      (discovery_candidates : Option (List String))
  | unsuccessful
  | raisedErr (k : ErrKind)
  deriving DecidableEq, Repr

/-- Environment of one registration attempt. `update_port` is the behavior
applied to an already-configured base URL of a non-containerized node; the
spec leaves that behavior unspecified, so it is kept abstract. -/
structure RegisterEnv where
  in_container : Bool
  built_candidates : List String
  resolved_fallback : String
  update_port : String → Nat → String
  outcome : RegisterOutcome

/-- Insertion into the candidate list with duplicates removed on insertion,
preserving first-seen order (spec section 3). -/
def insertCandidates (old extra : List String) : List String :=
  old ++ extra.filter (fun c => c ∉ old)

/-- Modelled from the spec: post-registration reconciliation of discovery
feedback (spec section 4.1): the resolved URL moves to the front of the
candidate list, followed by the remaining server-supplied candidates; any
previously known candidate not already present is appended, so a locally
valid fallback is never lost. `serverFirst` is the server-authoritative
part: the resolved URL at index 0 followed by the remaining
server-supplied candidates. -/
def serverFirst (resolved : String) (serverCands : List String) : List String :=
  resolved :: serverCands.filter (fun c => c ≠ resolved)

/-- See `serverFirst`: full reconciliation, appending the previously known
candidates that are not already present. -/
def reconcile (resolved : String) (serverCands oldCands : List String) :
    List String :=
  serverFirst resolved serverCands ++
    oldCands.filter (fun c => c ∉ serverFirst resolved serverCands)

/-- Modelled from the spec: the pre-registration negotiation step (spec
section 4.2 step 1 and the section 4.1 container policy). Freshly built
candidates are inserted into the candidate list; if the node is
containerized and already has a base URL, that URL is preserved verbatim;
if it has a base URL and is not containerized, the unspecified
`update_port` behavior is applied; otherwise the base URL is resolved from
the candidates first, then by fallback resolution. -/
def negotiate (s : AgentState) (port : Nat) (env : RegisterEnv) : AgentState :=
  let cands := insertCandidates s.callback_candidates env.built_candidates
  match s.base_url with
  | some u =>
    if env.in_container then
      { s with callback_candidates := cands }
    else
      { s with base_url := some (env.update_port u port),
               callback_candidates := cands }
  | none =>
    let b :=
      match cands with
      | c :: _ => c
      | [] => env.resolved_fallback
    { s with base_url := some b, callback_candidates := cands }

/-- Whether the registration call returned normally or propagated a raised
request exception to the caller. -/
inductive RegisterResult
  | returned
  | raisedRequestException
  deriving DecidableEq, Repr

/-- Observable effect of one registration attempt: how the call exited, the
connection record afterwards, and the base URL sent in the registration
request. -/
structure RegisterEffect where
  result : RegisterResult
  state : AgentState
  sent_base_url : String

/-- Modelled from the spec: `register_with_haxen_server(port)` (spec
section 4.2). After negotiation, the register endpoint is called with the
resolved base URL. On a truthy success the node is marked connected and
discovery feedback is reconciled, an explicit `resolved_base_url` winning
over the locally resolved one; on an explicit unsuccessful result the node
is marked disconnected without raising; a raised request exception marks
the node disconnected and propagates; any other raised error kind is
absorbed, leaving the node disconnected. -/
def register_with_haxen_server (s : AgentState) (port : Nat)
    (env : RegisterEnv) : RegisterEffect :=
  let s1 := negotiate s port env
  let sent := s1.base_url.getD env.resolved_fallback
  match env.outcome with
  | .raisedErr .requestException =>
    ⟨.raisedRequestException, { s1 with haxen_connected := false }, sent⟩
  | .raisedErr .otherError =>
    ⟨.returned, { s1 with haxen_connected := false }, sent⟩
  | .unsuccessful =>
    ⟨.returned, { s1 with haxen_connected := false }, sent⟩
  | .success resolvedOpt candsOpt =>
    let s2 := { s1 with haxen_connected := true }
    let s3 :=
      match resolvedOpt, candsOpt with
      | some r, some cs =>
        { s2 with base_url := some r,
                  callback_candidates := reconcile r cs s2.callback_candidates }
      | some r, none =>
        { s2 with base_url := some r,
                  callback_candidates := reconcile r [] s2.callback_candidates }
      | none, some cs =>
        match s2.base_url with
        | some b =>
          { s2 with callback_candidates := reconcile b cs s2.callback_candidates }
        | none =>
          { s2 with callback_candidates :=
              insertCandidates s2.callback_candidates cs }
      | none, none => s2
    ⟨.returned, s3, sent⟩

/-! ## Heartbeat Subsystem (spec section 4.3)

Modelled from the spec: the enhanced-heartbeat implementation is not in the
source tree (only its tests are). -/

/-- Outcome of the underlying enhanced-heartbeat transport call. -/
inductive HeartbeatTransport
  | ok (accepted : Bool)
  | raisedErr (msg : String)
  deriving DecidableEq, Repr

/-- Observable effect of one enhanced-heartbeat send: the boolean success
flag returned to the caller and the number of network calls performed. -/
structure HeartbeatEffect where
  success : Bool
  net_calls : Nat
  deriving DecidableEq, Repr

/-- Modelled from the spec: `send_enhanced_heartbeat()` (spec section 4.3).
If the node is not connected it returns false immediately without any
network call; otherwise it performs the transport call, returning its
boolean outcome and catching any raised error to return false. -/
def send_enhanced_heartbeat (haxen_connected : Bool)
    (transport : HeartbeatTransport) : HeartbeatEffect :=
  if haxen_connected then
    match transport with
    | .ok accepted => ⟨accepted, 1⟩
    | .raisedErr _ => ⟨false, 1⟩
  else
    ⟨false, 0⟩

/-! ## Async Execution Tracker (spec section 4.4)

Modelled from the spec: the async-tracker implementation module is not in
the source tree (only its tests are). Time is modelled by a logical
wall-clock counter advanced by the sleeps of the poll loop; network I/O is
modelled by an explicit call counter in each operation result. -/

/-- Process-wide async configuration (spec section 3), read by every
tracker operation. -/
structure AsyncConfig where
  enable_async_execution : Bool
  initial_poll_interval : Nat
  max_execution_timeout : Nat
  deriving DecidableEq, Repr

/-- Execution status lifecycle (spec section 3). -/
inductive ExecStatus
  | pending
  | running
  | succeeded
  | failed
  | timeout
  | cancelled
  deriving DecidableEq, Repr

/-- Terminal statuses are absorbing (spec section 4.4). -/
def ExecStatus.isTerminal : ExecStatus → Bool
  | .pending => false
  | .running => false
  | _ => true

/-- Result of one tracker operation together with the number of network
calls it performed. -/
structure TrackerOutcome (α : Type) where
  result : Except SdkError α
  net_calls : Nat

/-- The client error raised by the uniform disabled-feature guard. -/
def disabledError : SdkError :=
  .clientError "Async execution is disabled"

/-- Modelled from the spec: the guard clause run first by every public
tracker operation — when async execution is disabled it produces a client
error carrying a disabled marker, before any I/O. -/
def asyncGuard (cfg : AsyncConfig) : Option SdkError :=
  if cfg.enable_async_execution then none else some disabledError

/-- Body of the submission response: `execution_id` and/or `run_id`. -/
structure SubmitResponse where
  execution_id : Option String
  run_id : Option String
  deriving DecidableEq, Repr

/-- Modelled from the spec: `execute_async(target, input)` — guard first;
then one submission call; a response carrying neither identifier is a
protocol violation reported as a client error. -/
def execute_async (cfg : AsyncConfig) (resp : SubmitResponse) :
    TrackerOutcome (Option String × Option String) :=
  match asyncGuard cfg with
  | some e => ⟨.error e, 0⟩
  | none =>
    match resp.execution_id, resp.run_id with
    | none, none =>
      ⟨.error (.clientError "Execution response missing identifiers"), 1⟩
    | eid, rid => ⟨.ok (eid, rid), 1⟩

/-- Modelled from the spec: `poll_execution_status(id)` — guard first, then
one status query. -/
def poll_execution_status (cfg : AsyncConfig) (resp : ExecStatus) :
    TrackerOutcome ExecStatus :=
  match asyncGuard cfg with
  | some e => ⟨.error e, 0⟩
  | none => ⟨.ok resp, 1⟩

/-- Modelled from the spec: `batch_check_statuses(ids)` — guard first; an
empty id collection is rejected synchronously with a validation error
before any I/O; otherwise one batched query. -/
def batch_check_statuses (cfg : AsyncConfig) (ids : List String)
    (resp : List (String × ExecStatus)) :
    TrackerOutcome (List (String × ExecStatus)) :=
  match asyncGuard cfg with
  | some e => ⟨.error e, 0⟩
  | none =>
    if ids.isEmpty then
      ⟨.error (.validation "Execution IDs list cannot be empty"), 0⟩
    else
      ⟨.ok resp, 1⟩

/-- Modelled from the spec: the ceiling of the bounded backoff schedule
(the spec leaves the growth function open but requires bounded,
monotonically non-decreasing growth; this model chooses doubling capped at
the execution-timeout budget, never below one time unit). -/
def pollCap (cfg : AsyncConfig) : Nat :=
  max 1 cfg.max_execution_timeout

/-- Outcome of the poll-until-terminal loop: a terminal status after some
number of polls, a timeout raise recording the elapsed wall clock at the
raise, or exhausted fuel (unreachable for the fuel used by
`wait_for_execution_result` whenever the initial interval is positive). -/
inductive PollResult
  | completed (finalStatus : ExecStatus) (polls : Nat)
  | timedOut (elapsedAtRaise : Nat) (polls : Nat)
  | fuelExhausted
  deriving DecidableEq, Repr

/-- Modelled from the spec: the poll loop of `wait_for_execution_result` —
the elapsed wall clock since submission is checked against
`max_execution_timeout` before every poll and exceeding it raises; a
non-terminal response grows the interval under the bounded schedule and
sleeps before the next poll. `status n` is the status reported by the
endpoint at the n-th poll. -/
def pollUntilTerminal (cfg : AsyncConfig) (status : Nat → ExecStatus) :
    Nat → Nat → Nat → Nat → PollResult
  | 0, _, _, _ => .fuelExhausted
  | fuel + 1, elapsed, interval, n =>
    if cfg.max_execution_timeout < elapsed then
      .timedOut elapsed n
    else if (status n).isTerminal then
      .completed (status n) (n + 1)
    else
      pollUntilTerminal cfg status fuel (elapsed + min interval (pollCap cfg))
        (min (2 * interval) (pollCap cfg)) (n + 1)

/-- Modelled from the spec: `wait_for_execution_result(id)` (also the poll
phase of the synchronous execute) — guard first, then the poll loop; a
timeout surfaces as an execution-timeout error. The fuel
`max_execution_timeout + 2` is sufficient for every positive initial
interval, since each sleep advances the clock by at least one unit. -/
def wait_for_execution_result (cfg : AsyncConfig) (status : Nat → ExecStatus) :
    TrackerOutcome ExecStatus :=
  match asyncGuard cfg with
  | some e => ⟨.error e, 0⟩
  | none =>
    match pollUntilTerminal cfg status (cfg.max_execution_timeout + 2) 0
        cfg.initial_poll_interval 0 with
    | .completed st polls => ⟨.ok st, polls⟩
    | .timedOut _ polls =>
      ⟨.error (.executionTimeout "Execution timed out"), polls⟩
    | .fuelExhausted =>
      ⟨.error (.executionTimeout "Execution timed out"), 0⟩

/-- Modelled from the spec: `cancel_async_execution(id)` — guard first,
then a thin pass-through to the cancellation endpoint. -/
def cancel_async_execution (cfg : AsyncConfig) (eid : String)
    (accepted : Bool) : TrackerOutcome Bool :=
  match eid, asyncGuard cfg with
  | _, some e => ⟨.error e, 0⟩
  | _, none => ⟨.ok accepted, 1⟩

/-- Modelled from the spec: `list_async_executions()` — guard first, then a
thin pass-through. -/
def list_async_executions (cfg : AsyncConfig) (resp : List String) :
    TrackerOutcome (List String) :=
  match asyncGuard cfg with
  | some e => ⟨.error e, 0⟩
  | none => ⟨.ok resp, 1⟩

/-- Modelled from the spec: `get_async_execution_metrics()` — guard first,
then a thin pass-through. -/
def get_async_execution_metrics (cfg : AsyncConfig)
    (resp : List (String × Nat)) : TrackerOutcome (List (String × Nat)) :=
  match asyncGuard cfg with
  | some e => ⟨.error e, 0⟩
  | none => ⟨.ok resp, 1⟩

/-- Modelled from the spec: `cleanup_async_executions()` — guard first,
then a thin pass-through. -/
def cleanup_async_executions (cfg : AsyncConfig) (removed : Nat) :
    TrackerOutcome Nat :=
  match asyncGuard cfg with
  | some e => ⟨.error e, 0⟩
  | none => ⟨.ok removed, 1⟩

/-- C9: every error type of the SDK taxonomy (AgentFieldClientError,
ExecutionTimeoutError, MemoryAccessError, RegistrationError,
ValidationError) is a subclass of the root AgentFieldError, itself a
subclass of Exception, so each instance is catchable both as its own type
and as AgentFieldError. -/
theorem C9_exception_taxonomy :
    (sdkErrorKinds.all fun c =>
      subclassOf c .AgentFieldError && catchableAs c c &&
        catchableAs c .AgentFieldError) = true ∧
    subclassOf .AgentFieldError .Exception = true := by
  decide

/-- C2: every remote-store operation (set, get, delete, list_keys,
set_vector, delete_vector, similarity_search) wraps a raw transport error
into a memory-access error carrying its operation-specific message, and
re-raises an error that is already a memory-access error unchanged, never
adding a second wrapping layer. -/
theorem C2_memory_error_classification (k v scope d t : String)
    (vec : List Int) (e : MemoryAccessErrorVal) :
    (MemoryClient.set k v (.raisedTransport t) =
      .error ⟨"Failed to set memory key", some t⟩) ∧
    (MemoryClient.get k d (.raisedTransport t) =
      .error ⟨"Failed to get memory key", some t⟩) ∧
    (MemoryClient.delete k (.raisedTransport t) =
      .error ⟨"Failed to delete memory key", some t⟩) ∧
    (MemoryClient.list_keys scope (.raisedTransport t) =
      .error ⟨"Failed to list keys", some t⟩) ∧
    (MemoryClient.set_vector k vec (.raisedTransport t) =
      .error ⟨"Failed to set vector key", some t⟩) ∧
    (MemoryClient.delete_vector k (.raisedTransport t) =
      .error ⟨"Failed to delete vector key", some t⟩) ∧
    (MemoryClient.similarity_search vec (.raisedTransport t) =
      .error ⟨"Failed to perform similarity search", some t⟩) ∧
    (MemoryClient.set k v (.raisedMemoryAccess e) = .error e) ∧
    (MemoryClient.get k d (.raisedMemoryAccess e) = .error e) ∧
    (MemoryClient.delete k (.raisedMemoryAccess e) = .error e) ∧
    (MemoryClient.list_keys scope (.raisedMemoryAccess e) = .error e) ∧
    (MemoryClient.set_vector k vec (.raisedMemoryAccess e) = .error e) ∧
    (MemoryClient.delete_vector k (.raisedMemoryAccess e) = .error e) ∧
    (MemoryClient.similarity_search vec (.raisedMemoryAccess e) = .error e) :=
  ⟨rfl, rfl, rfl, rfl, rfl, rfl, rfl, rfl, rfl, rfl, rfl, rfl, rfl, rfl⟩

/-- C7: the two documented suppressions of the remote-store client:
`get(key, default)` on a not-found (404) response returns the
caller-supplied default instead of raising, and `exists(key)` returns
false on every injected error (transport errors included), never
raising. -/
theorem C7_store_suppressions (k d v t : String) (e : MemoryAccessErrorVal) :
    (MemoryClient.get k d (.ok 404 v) = .ok d) ∧
    (MemoryClient.existsKey k (.raisedTransport t) = false) ∧
    (MemoryClient.existsKey k (.raisedMemoryAccess e) = false) :=
  ⟨rfl, rfl, rfl⟩

theorem mem_serverFirst_of_mem (resolved y : String) (serverCands : List String)
    (hy : y ∈ serverCands) : y ∈ serverFirst resolved serverCands := by
  rcases eq_or_ne y resolved with h | h
  · exact h ▸ List.mem_cons_self _ _
  · exact List.mem_cons_of_mem _ (List.mem_filter.mpr ⟨hy, decide_eq_true h⟩)

theorem mem_reconcile_of_mem_old (resolved : String)
    (serverCands oldCands : List String) (c : String) (hc : c ∈ oldCands) :
    c ∈ reconcile resolved serverCands oldCands := by
  unfold reconcile
  by_cases h : c ∈ serverFirst resolved serverCands
  · exact List.mem_append_left _ h
  · exact List.mem_append_right _ (List.mem_filter.mpr ⟨hc, decide_eq_true h⟩)

/-- C1: a registration attempt whose underlying register call raises a
transport/network-class request exception propagates that error and leaves
the connection flag false; one that raises any other error kind returns
normally and likewise leaves the connection flag false. -/
theorem C1_register_error_classification (s : AgentState) (port : Nat)
    (env : RegisterEnv) :
    (env.outcome = .raisedErr .requestException →
      (register_with_haxen_server s port env).result =
        .raisedRequestException ∧
      (register_with_haxen_server s port env).state.haxen_connected = false) ∧
    (∀ k, k ≠ ErrKind.requestException → env.outcome = .raisedErr k →
      (register_with_haxen_server s port env).result = .returned ∧
      (register_with_haxen_server s port env).state.haxen_connected = false) := by
  constructor
  · intro h
    simp [register_with_haxen_server, h]
  · intro k hk h
    cases k with
    | requestException => exact absurd rfl hk
    | otherError => simp [register_with_haxen_server, h]

/-- Witness for C1: the concrete registration attempts of the failure
tests, one raising a request exception and one raising a RuntimeError. -/
theorem C1_register_error_classification_witness :
    ((register_with_haxen_server ⟨true, some "http://already", []⟩ 9001
        ⟨false, [], "http://already", fun u _ => u,
          RegisterOutcome.raisedErr ErrKind.requestException⟩).result =
        RegisterResult.raisedRequestException ∧
      (register_with_haxen_server ⟨true, some "http://already", []⟩ 9001
        ⟨false, [], "http://already", fun u _ => u,
          RegisterOutcome.raisedErr ErrKind.requestException⟩).state.haxen_connected
        = false) ∧
    ((register_with_haxen_server ⟨true, some "http://already", []⟩ 9000
        ⟨false, [], "http://already", fun u _ => u,
          RegisterOutcome.raisedErr ErrKind.otherError⟩).result =
        RegisterResult.returned ∧
      (register_with_haxen_server ⟨true, some "http://already", []⟩ 9000
        ⟨false, [], "http://already", fun u _ => u,
          RegisterOutcome.raisedErr ErrKind.otherError⟩).state.haxen_connected
        = false) :=
  ⟨(C1_register_error_classification _ _ _).1 rfl,
   (C1_register_error_classification _ _ _).2 ErrKind.otherError
     (by decide) rfl⟩

/-- C3: a successful registration whose discovery feedback carries
resolved_base_url X and candidates [X, Y] leaves base_url equal to X, X at
index 0 of callback_candidates and Y present in the list, and every
previously known candidate not in the server-supplied list is preserved. -/
theorem C3_discovery_feedback (s : AgentState) (port : Nat)
    (env : RegisterEnv) (X Y : String)
    (hout : env.outcome = .success (some X) (some [X, Y])) :
    (register_with_haxen_server s port env).state.base_url = some X ∧
    (register_with_haxen_server s port env).state.callback_candidates.head?
      = some X ∧
    Y ∈ (register_with_haxen_server s port env).state.callback_candidates ∧
    ∀ c ∈ (negotiate s port env).callback_candidates, c ∉ [X, Y] →
      c ∈ (register_with_haxen_server s port env).state.callback_candidates := by
  have hcands :
      (register_with_haxen_server s port env).state.callback_candidates =
        reconcile X [X, Y] (negotiate s port env).callback_candidates := by
    simp [register_with_haxen_server, hout]
  refine ⟨by simp [register_with_haxen_server, hout], ?_, ?_, ?_⟩
  · rw [hcands]
    simp [reconcile, serverFirst]
  · rw [hcands]
    exact List.mem_append_left _
      (mem_serverFirst_of_mem X Y [X, Y] (by simp))
  · intro c hc _
    rw [hcands]
    exact mem_reconcile_of_mem_old X [X, Y] _ c hc

/-- Witness for C3: the concrete discovery payload of the discovery test,
with one locally detected candidate. -/
theorem C3_discovery_feedback_witness :
    (register_with_haxen_server ⟨false, none, []⟩ 9000
        ⟨false, ["http://detected:9000"], "http://r", fun u _ => u,
          RegisterOutcome.success (some "https://public:9000")
            (some ["https://public:9000", "http://fallback:9000"])⟩).state.base_url
      = some "https://public:9000" ∧
    (register_with_haxen_server ⟨false, none, []⟩ 9000
        ⟨false, ["http://detected:9000"], "http://r", fun u _ => u,
          RegisterOutcome.success (some "https://public:9000")
            (some ["https://public:9000", "http://fallback:9000"])⟩).state.callback_candidates.head?
      = some "https://public:9000" ∧
    "http://fallback:9000" ∈
      (register_with_haxen_server ⟨false, none, []⟩ 9000
        ⟨false, ["http://detected:9000"], "http://r", fun u _ => u,
          RegisterOutcome.success (some "https://public:9000")
            (some ["https://public:9000", "http://fallback:9000"])⟩).state.callback_candidates ∧
    "http://detected:9000" ∈
      (register_with_haxen_server ⟨false, none, []⟩ 9000
        ⟨false, ["http://detected:9000"], "http://r", fun u _ => u,
          RegisterOutcome.success (some "https://public:9000")
            (some ["https://public:9000", "http://fallback:9000"])⟩).state.callback_candidates := by
  have h := C3_discovery_feedback ⟨false, none, []⟩ 9000
    ⟨false, ["http://detected:9000"], "http://r", fun u _ => u,
      RegisterOutcome.success (some "https://public:9000")
        (some ["https://public:9000", "http://fallback:9000"])⟩
    "https://public:9000" "http://fallback:9000" rfl
  exact ⟨h.1, h.2.1, h.2.2.1,
    h.2.2.2 "http://detected:9000" (by decide) (by decide)⟩

/-- C4: when the environment probe reports a containerized node and a base
URL is already configured, registration sends exactly that URL in the
register request and never replaces it with a locally detected candidate
or a port rewrite: afterwards base_url is either still that URL or, only
when the server response supplied an explicit resolved_base_url, that
server-resolved URL. -/
theorem C4_container_base_url_preserved (s : AgentState) (port : Nat)
    (env : RegisterEnv) (u : String)
    (hc : env.in_container = true) (hb : s.base_url = some u) :
    (register_with_haxen_server s port env).sent_base_url = u ∧
    ((register_with_haxen_server s port env).state.base_url = some u ∨
      ∃ r cs, env.outcome = RegisterOutcome.success (some r) cs ∧
        (register_with_haxen_server s port env).state.base_url = some r) := by
  have hneg : negotiate s port env =
      { s with callback_candidates :=
          insertCandidates s.callback_candidates env.built_candidates } := by
    simp [negotiate, hb, hc]
  cases hout : env.outcome with
  | success ro co =>
    cases ro with
    | some r =>
      refine ⟨?_, Or.inr ⟨r, co, rfl, ?_⟩⟩
      · simp [register_with_haxen_server, hout, hneg, hb]
      · cases co <;> simp [register_with_haxen_server, hout, hneg]
    | none =>
      refine ⟨?_, Or.inl ?_⟩
      · simp [register_with_haxen_server, hout, hneg, hb]
      · cases co <;> simp [register_with_haxen_server, hout, hneg, hb]
  | unsuccessful =>
    exact ⟨by simp [register_with_haxen_server, hout, hneg, hb],
      Or.inl (by simp [register_with_haxen_server, hout, hneg, hb])⟩
  | raisedErr k =>
    cases k <;>
      exact ⟨by simp [register_with_haxen_server, hout, hneg, hb],
        Or.inl (by simp [register_with_haxen_server, hout, hneg, hb])⟩

/-- Witness for C4: the concrete containerized node of the
container-preservation test, with an unsuccessful register response and a
port-rewriting update function that is demonstrably not applied. -/
theorem C4_container_base_url_preserved_witness :
    (register_with_haxen_server
        ⟨true, some "http://service.railway.internal:5000", []⟩ 7000
        ⟨true, ["http://detected:7000"], "http://fb",
          fun _ p => "http://rewritten:" ++ toString p,
          RegisterOutcome.unsuccessful⟩).sent_base_url
      = "http://service.railway.internal:5000" ∧
    ((register_with_haxen_server
        ⟨true, some "http://service.railway.internal:5000", []⟩ 7000
        ⟨true, ["http://detected:7000"], "http://fb",
          fun _ p => "http://rewritten:" ++ toString p,
          RegisterOutcome.unsuccessful⟩).state.base_url
      = some "http://service.railway.internal:5000" ∨
      ∃ r cs,
        (⟨true, ["http://detected:7000"], "http://fb",
          fun _ p => "http://rewritten:" ++ toString p,
          RegisterOutcome.unsuccessful⟩ : RegisterEnv).outcome
          = RegisterOutcome.success (some r) cs ∧
        (register_with_haxen_server
          ⟨true, some "http://service.railway.internal:5000", []⟩ 7000
          ⟨true, ["http://detected:7000"], "http://fb",
            fun _ p => "http://rewritten:" ++ toString p,
            RegisterOutcome.unsuccessful⟩).state.base_url = some r) :=
  C4_container_base_url_preserved _ 7000 _ _ rfl rfl

/-- C8: the enhanced heartbeat returns a boolean instead of raising: when
the connection flag is false it returns false with zero network calls, and
when the underlying transport call raises, the error is caught and the
method returns false. -/
theorem C8_enhanced_heartbeat_boolean (t : HeartbeatTransport) (msg : String) :
    send_enhanced_heartbeat false t = ⟨false, 0⟩ ∧
    send_enhanced_heartbeat true (.raisedErr msg) = ⟨false, 1⟩ :=
  ⟨rfl, rfl⟩

/-- C5: each of the eight async-tracker operations, when
enable_async_execution is false, fails with the client error carrying the
disabled marker and performs zero network calls. -/
theorem C5_async_disabled_guard (cfg : AsyncConfig) (resp : SubmitResponse)
    (st : ExecStatus) (ids : List String) (sts : List (String × ExecStatus))
    (status : Nat → ExecStatus) (eid : String) (accepted : Bool)
    (names : List String) (metrics : List (String × Nat)) (removed : Nat)
    (h : cfg.enable_async_execution = false) :
    execute_async cfg resp = ⟨.error disabledError, 0⟩ ∧
    poll_execution_status cfg st = ⟨.error disabledError, 0⟩ ∧
    batch_check_statuses cfg ids sts = ⟨.error disabledError, 0⟩ ∧
    wait_for_execution_result cfg status = ⟨.error disabledError, 0⟩ ∧
    cancel_async_execution cfg eid accepted = ⟨.error disabledError, 0⟩ ∧
    list_async_executions cfg names = ⟨.error disabledError, 0⟩ ∧
    get_async_execution_metrics cfg metrics = ⟨.error disabledError, 0⟩ ∧
    cleanup_async_executions cfg removed = ⟨.error disabledError, 0⟩ ∧
    disabledError.kind = ExcKind.AgentFieldClientError ∧
    ∃ pre post, disabledError.message = pre ++ "disabled" ++ post := by
  refine ⟨?_, ?_, ?_, ?_, ?_, ?_, ?_, ?_, rfl,
    ⟨"Async execution is ", "", by decide⟩⟩
  all_goals
    simp [execute_async, poll_execution_status, batch_check_statuses,
      wait_for_execution_result, cancel_async_execution,
      list_async_executions, get_async_execution_metrics,
      cleanup_async_executions, asyncGuard, h]

/-- Witness for C5: the disabled configuration applied to each of the
eight operations at concrete arguments. -/
theorem C5_async_disabled_guard_witness :
    execute_async ⟨false, 1, 1⟩ ⟨some "e", some "r"⟩
      = ⟨.error disabledError, 0⟩ ∧
    poll_execution_status ⟨false, 1, 1⟩ ExecStatus.running
      = ⟨.error disabledError, 0⟩ ∧
    batch_check_statuses ⟨false, 1, 1⟩ ["exec-1"]
      [("exec-1", ExecStatus.running)] = ⟨.error disabledError, 0⟩ ∧
    wait_for_execution_result ⟨false, 1, 1⟩ (fun _ => ExecStatus.running)
      = ⟨.error disabledError, 0⟩ ∧
    cancel_async_execution ⟨false, 1, 1⟩ "exec-1" true
      = ⟨.error disabledError, 0⟩ ∧
    list_async_executions ⟨false, 1, 1⟩ ["exec-1"]
      = ⟨.error disabledError, 0⟩ ∧
    get_async_execution_metrics ⟨false, 1, 1⟩ [("total", 3)]
      = ⟨.error disabledError, 0⟩ ∧
    cleanup_async_executions ⟨false, 1, 1⟩ 0
      = ⟨.error disabledError, 0⟩ ∧
    disabledError.kind = ExcKind.AgentFieldClientError ∧
    ∃ pre post, disabledError.message = pre ++ "disabled" ++ post :=
  C5_async_disabled_guard ⟨false, 1, 1⟩ ⟨some "e", some "r"⟩
    ExecStatus.running ["exec-1"] [("exec-1", ExecStatus.running)]
    (fun _ => ExecStatus.running) "exec-1" true ["exec-1"] [("total", 3)] 0
    rfl

theorem pollUntilTerminal_alwaysRunning (cfg : AsyncConfig)
    (status : Nat → ExecStatus) (hrun : ∀ n, status n = ExecStatus.running) :
    ∀ fuel elapsed interval n, 1 ≤ interval →
      elapsed ≤ cfg.max_execution_timeout + pollCap cfg →
      cfg.max_execution_timeout + 1 - elapsed < fuel →
      ∃ e polls,
        pollUntilTerminal cfg status fuel elapsed interval n =
          .timedOut e polls ∧
        e ≤ cfg.max_execution_timeout + pollCap cfg := by
  intro fuel
  induction fuel with
  | zero =>
    intro elapsed interval n _ _ hf
    omega
  | succ f ih =>
    intro elapsed interval n hi he hf
    by_cases hgt : cfg.max_execution_timeout < elapsed
    · exact ⟨elapsed, n, by simp [pollUntilTerminal, hgt], he⟩
    · have hcap1 : 1 ≤ pollCap cfg := le_max_left 1 _
      have hs1 : 1 ≤ min interval (pollCap cfg) := le_min hi hcap1
      have hs2 : min interval (pollCap cfg) ≤ pollCap cfg := min_le_right _ _
      have hnext : 1 ≤ min (2 * interval) (pollCap cfg) :=
        le_min (by omega) hcap1
      obtain ⟨e, polls, heq, hbound⟩ :=
        ih (elapsed + min interval (pollCap cfg))
          (min (2 * interval) (pollCap cfg)) (n + 1) hnext (by omega)
          (by omega)
      refine ⟨e, polls, ?_, hbound⟩
      have hterm : (status n).isTerminal = false := by
        rw [hrun n]
        rfl
      simp only [pollUntilTerminal, if_neg hgt, hterm, Bool.false_eq_true,
        if_false]
      exact heq

/-- C6: against a status endpoint that always reports running, the poll
loop raises the execution-timeout error, and the elapsed wall clock at the
raise is bounded by twice the configured timeout plus one unit, however
many polls occurred. -/
theorem C6_poll_timeout (cfg : AsyncConfig) (status : Nat → ExecStatus)
    (hen : cfg.enable_async_execution = true)
    (hint : 1 ≤ cfg.initial_poll_interval)
    (hrun : ∀ n, status n = ExecStatus.running) :
    ∃ e polls,
      pollUntilTerminal cfg status (cfg.max_execution_timeout + 2) 0
        cfg.initial_poll_interval 0 = .timedOut e polls ∧
      e ≤ 2 * cfg.max_execution_timeout + 1 ∧
      (wait_for_execution_result cfg status).result =
        .error (.executionTimeout "Execution timed out") := by
  obtain ⟨e, polls, heq, hb⟩ :=
    pollUntilTerminal_alwaysRunning cfg status hrun
      (cfg.max_execution_timeout + 2) 0 cfg.initial_poll_interval 0 hint
      (by omega) (by omega)
  have hcap : pollCap cfg ≤ cfg.max_execution_timeout + 1 := by
    unfold pollCap
    omega
  refine ⟨e, polls, heq, by omega, ?_⟩
  simp [wait_for_execution_result, asyncGuard, hen, heq]

/-- Witness for C6: a unit timeout budget, a unit initial interval and a
status endpoint constantly reporting running. -/
theorem C6_poll_timeout_witness :
    ∃ e polls,
      pollUntilTerminal ⟨true, 1, 1⟩ (fun _ => ExecStatus.running) 3 0 1 0
        = .timedOut e polls ∧
      e ≤ 3 ∧
      (wait_for_execution_result ⟨true, 1, 1⟩
        (fun _ => ExecStatus.running)).result =
        .error (.executionTimeout "Execution timed out") :=
  C6_poll_timeout ⟨true, 1, 1⟩ (fun _ => ExecStatus.running) rfl
    (by decide) (fun _ => rfl)

end AgentField
